import Mathlib

/-!
Shallow embedding of `src/pptApp/src/pptDecode.c` (PPT modulator frame decoder).

The C file defines two aSub record subroutines, `pptDecodeThyratronKlystron`
and `pptDecodeMagnetsTimersStatus`, each of which reads an input byte buffer
(`prec->a`, `prec->nea` bytes) and writes 15 double output slots
(`prec->vala` .. `prec->valo`).  Both first check `prec->nea < 86` and on
failure print an error naming the actual length and the required 86 bytes,
return 1 and write nothing; otherwise they extract 16-bit little-endian
words via `getWord` and fill every slot, returning 0.

Modelling choices:
* a byte buffer is a `List ℕ` (unsigned char values, each `< 256` when
  well formed); the reported element count `prec->nea` is the list length;
* C `double` values are modelled as exact rationals `ℚ` (binary64
  representability is treated separately by the `reprBinary64` predicate);
* each subroutine is a pure function from the buffer and the prior contents
  of the 15 output slots to a `DecodeResult`: the returned `long` status,
  the new slot contents, and the `(actual, required)` pair reported by the
  error branch (`none` on success).
-/

/-- The 15 output slots `VALA` .. `VALO` of one aSub record, each a C double
(modelled as an exact rational). -/
structure Vals where
  vala : ℚ
  valb : ℚ
  valc : ℚ
  vald : ℚ
  vale : ℚ
  valf : ℚ
  valg : ℚ
  valh : ℚ
  vali : ℚ
  valj : ℚ
  valk : ℚ
  vall : ℚ
  valm : ℚ
  valn : ℚ
  valo : ℚ
  deriving DecidableEq

/-- Result of one decode call: the returned `long` status (`0` success,
`1` truncated frame), the 15 output slots after the call, and the
`(actual, required)` length pair reported by the truncation error branch
(`printf("ERROR: received less bytes %d<86", prec->nea)`); `none` when no
error was reported. -/
structure DecodeResult where
  ret : ℕ
  vals : Vals
  err : Option (ℕ × ℕ)
  deriving DecidableEq

/-- C: `static unsigned short getWord(const unsigned char *data, int offset)
{ return (unsigned short)(data[offset] | (data[offset+1] << 8)); }`.
Bytes are read with default 0 for out-of-range indices (the C code never
reaches an out-of-range read on the paths modelled here); the final
`% 65536` is the cast to `unsigned short`. -/
def getWord (data : List ℕ) (offset : ℕ) : ℕ :=
  (data.getD offset 0 ||| (data.getD (offset + 1) 0 <<< 8)) % 65536

/-- Scaling `rawVal / 10.0` used for voltages, temperatures and power. -/
def div10 (w : ℕ) : ℚ := (w : ℚ) / 10

/-- Scaling `rawVal / 100.0` used for currents and flow. -/
def div100 (w : ℕ) : ℚ := (w : ℚ) / 100

/-- Unscaled `(double)rawVal` used for timers and status/interlock words. -/
def rawScale (w : ℕ) : ℚ := (w : ℚ)

/-- C function `pptDecodeThyratronKlystron` of `pptDecode.c`: decodes the
Thyratron and Klystron measurements and status/interlock words.
`buf` is the input byte buffer `prec->a` (its length playing the role of
`prec->nea`); `v` holds the contents of the 15 output slots before the
call, which the C code leaves untouched on the truncation error path. -/
def pptDecodeThyratronKlystron (buf : List ℕ) (v : Vals) : DecodeResult :=
  if buf.length < 86 then
    { ret := 1, vals := v, err := some (buf.length, 86) }
  else
    { ret := 0
      vals :=
        { vala := div10 (getWord buf 0)      -- Thyratron Heater Voltage
          valb := div10 (getWord buf 2)      -- Thyratron Reservoir Voltage
          valc := div100 (getWord buf 4)     -- Thyratron Total Current
          vald := div10 (getWord buf 14)     -- Klystron Heater Voltage
          vale := div100 (getWord buf 16)    -- Klystron Heater Current
          valf := div10 (getWord buf 18)     -- Klystron Body Water In Temp
          valg := div10 (getWord buf 20)     -- Klystron Body Water Out Temp
          valh := div100 (getWord buf 22)    -- Klystron Body Water Flow
          vali := div10 (getWord buf 24)     -- Klystron Dissipated Power
          valj := div10 (getWord buf 26)     -- Klystron Oil Temperature
          valk := rawScale (getWord buf 10)  -- Thyratron Interlock Raw
          vall := rawScale (getWord buf 12)  -- Thyratron Status Raw
          valm := rawScale (getWord buf 32)  -- Klystron Interlock Raw
          valn := rawScale (getWord buf 34)  -- Klystron Status Raw
          valo := 0 }                        -- Reserved
      err := none }

/-- C function `pptDecodeMagnetsTimersStatus` of `pptDecode.c`: decodes the
Focus Magnet, Premagnetisation, timer and status/interlock words. -/
def pptDecodeMagnetsTimersStatus (buf : List ℕ) (v : Vals) : DecodeResult :=
  if buf.length < 86 then
    { ret := 1, vals := v, err := some (buf.length, 86) }
  else
    { ret := 0
      vals :=
        { vala := div10 (getWord buf 36)     -- Focus Magnet Voltage Coil 1
          valb := div100 (getWord buf 38)    -- Focus Magnet Current Coil 1
          valc := div10 (getWord buf 40)     -- Focus Magnet Voltage Coil 2
          vald := div100 (getWord buf 42)    -- Focus Magnet Current Coil 2
          vale := div10 (getWord buf 44)     -- Focus Magnet Voltage Coil 3
          valf := div100 (getWord buf 46)    -- Focus Magnet Current Coil 3
          valg := div10 (getWord buf 52)     -- Premagnetisation Voltage
          valh := div100 (getWord buf 54)    -- Premagnetisation Current
          vali := rawScale (getWord buf 6)   -- Thyratron Timer Preheat Min
          valj := rawScale (getWord buf 8)   -- Thyratron Timer Preheat Sec
          valk := rawScale (getWord buf 28)  -- Klystron Timer Preheat100 Min
          vall := rawScale (getWord buf 48)  -- Focus Magnet Interlock Raw
          valm := rawScale (getWord buf 50)  -- Focus Magnet Status Raw
          valn := rawScale (getWord buf 56)  -- Premagnetisation Interlock Raw
          valo := rawScale (getWord buf 58) } -- Premagnetisation Status Raw
      err := none }

/-- The 15 slots of one record as a list, in `VALA` .. `VALO` order. -/
def valsList (x : Vals) : List ℚ :=
  [x.vala, x.valb, x.valc, x.vald, x.vale, x.valf, x.valg, x.valh,
   x.vali, x.valj, x.valk, x.vall, x.valm, x.valn, x.valo]

/-- All-zero prior slot contents. -/
def zeroVals : Vals :=
  { vala := 0, valb := 0, valc := 0, vald := 0, vale := 0, valf := 0
    valg := 0, valh := 0, vali := 0, valj := 0, valk := 0, vall := 0
    valm := 0, valn := 0, valo := 0 }

/-- A distinctive prior slot state (all slots `7`), used to observe that the
error path writes nothing. -/
def sevenVals : Vals :=
  { vala := 7, valb := 7, valc := 7, vald := 7, vale := 7, valf := 7
    valg := 7, valh := 7, vali := 7, valj := 7, valk := 7, vall := 7
    valm := 7, valn := 7, valo := 7 }

/-- The 30 output values produced for `buf` by the two decode functions
(run from all-zero prior slots), concatenated. -/
def outputsAll (buf : List ℕ) : List ℚ :=
  valsList (pptDecodeThyratronKlystron buf zeroVals).vals ++
    valsList (pptDecodeMagnetsTimersStatus buf zeroVals).vals

/-- Modelled from the spec (section 6 field table, row
`KlystronVoltage | 64 | div 10 | V`): the value such a field would have.
No code under `src/` extracts a word at offset 64; this definition exists
only to compare the spec table against the code outputs. -/
def specKlystronVoltage (buf : List ℕ) : ℚ := div10 (getWord buf 64)

/-- Modelled from the spec (section 6 field table, row
`KlystronCurrent | 68 | div 100 | A`): the value such a field would have.
No code under `src/` extracts a word at offset 68. -/
def specKlystronCurrent (buf : List ℕ) : ℚ := div100 (getWord buf 68)

/-- Exact representability as an IEEE-754 binary64 value: `q = m * 2 ^ e`
with a 53-bit significand and the binary64 exponent range. -/
def reprBinary64 (q : ℚ) : Prop :=
  ∃ m : ℤ, ∃ e : ℤ, |m| < 2 ^ 53 ∧ -1074 ≤ e ∧ e ≤ 971 ∧ q = (m : ℚ) * (2 : ℚ) ^ e

section Helpers

/-- Disjoint-bit bitwise or is addition: the low byte occupies bits 0..7 and
the shifted high byte bits 8.. . -/
theorem lor_low_high (lo hi : ℕ) (h : lo < 256) :
    (lo ||| (hi <<< 8)) = lo + 256 * hi := by
  apply Nat.eq_of_testBit_eq
  intro j
  rw [Nat.testBit_lor, Nat.testBit_shiftLeft]
  rw [show lo + 256 * hi = 2 ^ 8 * hi + lo by ring]
  rw [Nat.testBit_mul_pow_two_add _ h j]
  by_cases hj : j < 8
  · simp [hj, Nat.not_le.mpr hj]
  · have hle : 8 ≤ j := Nat.not_lt.mp hj
    have hfalse : lo.testBit j = false := by
      apply Nat.testBit_lt_two_pow
      calc lo < 256 := h
        _ = 2 ^ 8 := by norm_num
        _ ≤ 2 ^ j := Nat.pow_le_pow_right (by norm_num) hle
    simp [hj, hle, hfalse]

/-- `getWord` always yields a 16-bit value. -/
theorem getWord_lt (data : List ℕ) (offset : ℕ) : getWord data offset < 65536 :=
  Nat.mod_lt _ (by norm_num)

/-- `getWord` only looks at the two bytes at `offset` and `offset + 1`. -/
theorem getWord_congr (b₁ b₂ : List ℕ) (o : ℕ)
    (h₀ : b₁.getD o 0 = b₂.getD o 0) (h₁ : b₁.getD (o + 1) 0 = b₂.getD (o + 1) 0) :
    getWord b₁ o = getWord b₂ o := by
  unfold getWord
  rw [h₀, h₁]

end Helpers

section Helpers

/-- On a buffer of sufficient length, `pptDecodeThyratronKlystron` takes the
success branch. -/
theorem tk_success (buf : List ℕ) (v : Vals) (h : 86 ≤ buf.length) :
    pptDecodeThyratronKlystron buf v =
      { ret := 0
        vals :=
          { vala := div10 (getWord buf 0), valb := div10 (getWord buf 2)
            valc := div100 (getWord buf 4), vald := div10 (getWord buf 14)
            vale := div100 (getWord buf 16), valf := div10 (getWord buf 18)
            valg := div10 (getWord buf 20), valh := div100 (getWord buf 22)
            vali := div10 (getWord buf 24), valj := div10 (getWord buf 26)
            valk := rawScale (getWord buf 10), vall := rawScale (getWord buf 12)
            valm := rawScale (getWord buf 32), valn := rawScale (getWord buf 34)
            valo := 0 }
        err := none } := by
  unfold pptDecodeThyratronKlystron
  rw [if_neg (Nat.not_lt.mpr h)]

/-- On a buffer of sufficient length, `pptDecodeMagnetsTimersStatus` takes
the success branch. -/
theorem mts_success (buf : List ℕ) (v : Vals) (h : 86 ≤ buf.length) :
    pptDecodeMagnetsTimersStatus buf v =
      { ret := 0
        vals :=
          { vala := div10 (getWord buf 36), valb := div100 (getWord buf 38)
            valc := div10 (getWord buf 40), vald := div100 (getWord buf 42)
            vale := div10 (getWord buf 44), valf := div100 (getWord buf 46)
            valg := div10 (getWord buf 52), valh := div100 (getWord buf 54)
            vali := rawScale (getWord buf 6), valj := rawScale (getWord buf 8)
            valk := rawScale (getWord buf 28), vall := rawScale (getWord buf 48)
            valm := rawScale (getWord buf 50), valn := rawScale (getWord buf 56)
            valo := rawScale (getWord buf 58) }
        err := none } := by
  unfold pptDecodeMagnetsTimersStatus
  rw [if_neg (Nat.not_lt.mpr h)]

/-- Both decode calls give fully equal results on two sufficiently long
buffers that agree on bytes 0..59. -/
theorem decode_agree (b₁ b₂ : List ℕ) (v : Vals)
    (h₁ : 86 ≤ b₁.length) (h₂ : 86 ≤ b₂.length)
    (hag : ∀ i : ℕ, i ≤ 59 → b₁.getD i 0 = b₂.getD i 0) :
    pptDecodeThyratronKlystron b₁ v = pptDecodeThyratronKlystron b₂ v ∧
      pptDecodeMagnetsTimersStatus b₁ v = pptDecodeMagnetsTimersStatus b₂ v := by
  have hgw : ∀ o : ℕ, o ≤ 58 → getWord b₁ o = getWord b₂ o := by
    intro o ho
    exact getWord_congr b₁ b₂ o (hag o (by omega)) (hag (o + 1) (by omega))
  constructor
  · rw [tk_success b₁ v h₁, tk_success b₂ v h₂]
    rw [hgw 0 (by norm_num), hgw 2 (by norm_num), hgw 4 (by norm_num),
      hgw 14 (by norm_num), hgw 16 (by norm_num), hgw 18 (by norm_num),
      hgw 20 (by norm_num), hgw 22 (by norm_num), hgw 24 (by norm_num),
      hgw 26 (by norm_num), hgw 10 (by norm_num), hgw 12 (by norm_num),
      hgw 32 (by norm_num), hgw 34 (by norm_num)]
  · rw [mts_success b₁ v h₁, mts_success b₂ v h₂]
    rw [hgw 36 (by norm_num), hgw 38 (by norm_num), hgw 40 (by norm_num),
      hgw 42 (by norm_num), hgw 44 (by norm_num), hgw 46 (by norm_num),
      hgw 52 (by norm_num), hgw 54 (by norm_num), hgw 6 (by norm_num),
      hgw 8 (by norm_num), hgw 28 (by norm_num), hgw 48 (by norm_num),
      hgw 50 (by norm_num), hgw 56 (by norm_num), hgw 58 (by norm_num)]

end Helpers

/-- Claim C1: for every input buffer whose reported length is less than 86,
each decode function fails, returning status 1 and reporting the truncation
error with actual = the given length and required = 86, and leaves every
output slot unchanged (no partial output). -/
theorem c1_truncated_atomic (buf : List ℕ) (v : Vals) (h : buf.length < 86) :
    pptDecodeThyratronKlystron buf v =
        { ret := 1, vals := v, err := some (buf.length, 86) } ∧
      pptDecodeMagnetsTimersStatus buf v =
        { ret := 1, vals := v, err := some (buf.length, 86) } := by
  constructor
  · unfold pptDecodeThyratronKlystron
    rw [if_pos h]
  · unfold pptDecodeMagnetsTimersStatus
    rw [if_pos h]

/-- Witness for C1 at the concrete 85-byte all-zero buffer, started from the
all-sevens prior slot state. -/
theorem c1_truncated_atomic_witness :
    (List.replicate 85 (0 : ℕ)).length < 86 ∧
      (pptDecodeThyratronKlystron (List.replicate 85 (0 : ℕ)) sevenVals =
          { ret := 1, vals := sevenVals, err := some (85, 86) } ∧
        pptDecodeMagnetsTimersStatus (List.replicate 85 (0 : ℕ)) sevenVals =
          { ret := 1, vals := sevenVals, err := some (85, 86) }) := by
  refine ⟨by decide, ?_⟩
  have h := c1_truncated_atomic (List.replicate 85 (0 : ℕ)) sevenVals (by decide)
  simpa using h

/-- Claim C3: for bytes `lo`, `hi` below 256 stored at an even offset `o`
and `o + 1` of a buffer, `getWord` returns the unsigned little-endian value
`lo + 256 * hi`, independent of host endianness. -/
theorem c3_getWord_little_endian (buf : List ℕ) (o lo hi : ℕ)
    (_ho : Even o) (_hrange : o + 1 < buf.length)
    (hlo : buf.getD o 0 = lo) (hhi : buf.getD (o + 1) 0 = hi)
    (hlo8 : lo < 256) (hhi8 : hi < 256) :
    getWord buf o = lo + 256 * hi := by
  unfold getWord
  rw [hlo, hhi, lor_low_high lo hi hlo8]
  exact Nat.mod_eq_of_lt (by omega)

/-- Witness for C3: bytes `0x34`, `0x12` at offset 2 give `0x1234 = 4660`. -/
theorem c3_getWord_little_endian_witness :
    Even 2 ∧ (2 + 1 < ([9, 9, 52, 18, 9, 9] : List ℕ).length) ∧
      ([9, 9, 52, 18, 9, 9] : List ℕ).getD 2 0 = 52 ∧
      ([9, 9, 52, 18, 9, 9] : List ℕ).getD 3 0 = 18 ∧
      getWord [9, 9, 52, 18, 9, 9] 2 = 4660 := by
  refine ⟨by decide, by decide, by decide, by decide, ?_⟩
  exact c3_getWord_little_endian [9, 9, 52, 18, 9, 9] 2 52 18 (by decide)
    (by decide) (by decide) (by decide) (by decide) (by decide)

section Helpers

/-- `getD` on an appended list agrees with the left part in range. -/
theorem getD_append_left (l l' : List ℕ) (i : ℕ) (h : i < l.length) :
    (l ++ l').getD i 0 = l.getD i 0 :=
  List.getD_append l l' 0 i h

/-- `getD` on a prefix agrees with the whole list below the cut. -/
theorem getD_take (l : List ℕ) (n i : ℕ) (h : i < n) :
    (l.take n).getD i 0 = l.getD i 0 := by
  rw [List.getD_eq_getElem?_getD, List.getD_eq_getElem?_getD,
    List.getElem?_take, if_pos h]

end Helpers

/-- Claim C9: the decoded outputs depend only on bytes 0..59 of the buffer:
two sufficiently long buffers agreeing on bytes 0..59 give fully identical
results from both decode functions (no byte at index 60 or above is read by
field extraction; the highest byte accessed is index 59, via the word at
offset 58). -/
theorem c9_depends_only_on_low_bytes (b₁ b₂ : List ℕ) (v : Vals)
    (h₁ : 86 ≤ b₁.length) (h₂ : 86 ≤ b₂.length)
    (hag : ∀ i : ℕ, i ≤ 59 → b₁.getD i 0 = b₂.getD i 0) :
    pptDecodeThyratronKlystron b₁ v = pptDecodeThyratronKlystron b₂ v ∧
      pptDecodeMagnetsTimersStatus b₁ v = pptDecodeMagnetsTimersStatus b₂ v :=
  decode_agree b₁ b₂ v h₁ h₂ hag

/-- Witness for C9: an all-zero 86-byte buffer and one that differs only at
byte 60 decode identically. -/
theorem c9_depends_only_on_low_bytes_witness :
    86 ≤ (List.replicate 86 (0 : ℕ)).length ∧
      86 ≤ (List.replicate 60 (0 : ℕ) ++ [255] ++ List.replicate 25 (0 : ℕ)).length ∧
      (∀ i : ℕ, i ≤ 59 → (List.replicate 86 (0 : ℕ)).getD i 0 =
        (List.replicate 60 (0 : ℕ) ++ [255] ++ List.replicate 25 (0 : ℕ)).getD i 0) ∧
      (pptDecodeThyratronKlystron (List.replicate 86 (0 : ℕ)) zeroVals =
          pptDecodeThyratronKlystron
            (List.replicate 60 (0 : ℕ) ++ [255] ++ List.replicate 25 (0 : ℕ)) zeroVals ∧
        pptDecodeMagnetsTimersStatus (List.replicate 86 (0 : ℕ)) zeroVals =
          pptDecodeMagnetsTimersStatus
            (List.replicate 60 (0 : ℕ) ++ [255] ++ List.replicate 25 (0 : ℕ)) zeroVals) := by
  refine ⟨by decide, by decide, by decide, ?_⟩
  exact c9_depends_only_on_low_bytes _ _ zeroVals (by decide) (by decide) (by decide)

/-- Claim C6: trailing bytes beyond index 85 are ignored: decoding a
sufficiently long buffer with any extra bytes appended gives exactly the
same result as decoding its first 86 bytes, for both decode functions. -/
theorem c6_trailing_ignored (buf extra : List ℕ) (v : Vals)
    (h : 86 ≤ buf.length) :
    pptDecodeThyratronKlystron (buf ++ extra) v =
        pptDecodeThyratronKlystron (buf.take 86) v ∧
      pptDecodeMagnetsTimersStatus (buf ++ extra) v =
        pptDecodeMagnetsTimersStatus (buf.take 86) v := by
  have hlen₁ : 86 ≤ (buf ++ extra).length := by
    rw [List.length_append]; omega
  have hlen₂ : 86 ≤ (buf.take 86).length := by
    rw [List.length_take]; omega
  refine decode_agree _ _ v hlen₁ hlen₂ ?_
  intro i hi
  rw [getD_append_left buf extra i (by omega), getD_take buf 86 i (by omega)]

/-- Witness for C6 at a concrete 86-byte buffer with three junk bytes
appended. -/
theorem c6_trailing_ignored_witness :
    86 ≤ (List.replicate 86 (3 : ℕ)).length ∧
      (pptDecodeThyratronKlystron (List.replicate 86 (3 : ℕ) ++ [250, 251, 252]) zeroVals =
          pptDecodeThyratronKlystron ((List.replicate 86 (3 : ℕ)).take 86) zeroVals ∧
        pptDecodeMagnetsTimersStatus (List.replicate 86 (3 : ℕ) ++ [250, 251, 252]) zeroVals =
          pptDecodeMagnetsTimersStatus ((List.replicate 86 (3 : ℕ)).take 86) zeroVals) :=
  ⟨by decide, c6_trailing_ignored (List.replicate 86 (3 : ℕ)) [250, 251, 252] zeroVals (by decide)⟩

/-- Claim C7: decode is deterministic: running either decode function a
second time on the same input bytes (starting from the slots the first run
left) reproduces the first result exactly, and on a sufficiently long
buffer the result does not depend on the prior slot contents at all. -/
theorem c7_deterministic (buf : List ℕ) (v w : Vals) :
    (pptDecodeThyratronKlystron buf (pptDecodeThyratronKlystron buf v).vals =
        pptDecodeThyratronKlystron buf v ∧
      pptDecodeMagnetsTimersStatus buf (pptDecodeMagnetsTimersStatus buf v).vals =
        pptDecodeMagnetsTimersStatus buf v) ∧
      (86 ≤ buf.length →
        pptDecodeThyratronKlystron buf v = pptDecodeThyratronKlystron buf w ∧
          pptDecodeMagnetsTimersStatus buf v = pptDecodeMagnetsTimersStatus buf w) := by
  constructor
  · constructor <;> by_cases h : buf.length < 86 <;>
      simp [pptDecodeThyratronKlystron, pptDecodeMagnetsTimersStatus, h]
  · intro h
    rw [tk_success buf v h, tk_success buf w h,
      mts_success buf v h, mts_success buf w h]
    exact ⟨rfl, rfl⟩

/-- Witness for C7 at a concrete 86-byte buffer and two distinct prior slot
states. -/
theorem c7_deterministic_witness :
    ((pptDecodeThyratronKlystron (List.replicate 86 (5 : ℕ))
          (pptDecodeThyratronKlystron (List.replicate 86 (5 : ℕ)) zeroVals).vals =
        pptDecodeThyratronKlystron (List.replicate 86 (5 : ℕ)) zeroVals ∧
      pptDecodeMagnetsTimersStatus (List.replicate 86 (5 : ℕ))
          (pptDecodeMagnetsTimersStatus (List.replicate 86 (5 : ℕ)) zeroVals).vals =
        pptDecodeMagnetsTimersStatus (List.replicate 86 (5 : ℕ)) zeroVals) ∧
      (86 ≤ (List.replicate 86 (5 : ℕ)).length →
        pptDecodeThyratronKlystron (List.replicate 86 (5 : ℕ)) zeroVals =
            pptDecodeThyratronKlystron (List.replicate 86 (5 : ℕ)) sevenVals ∧
          pptDecodeMagnetsTimersStatus (List.replicate 86 (5 : ℕ)) zeroVals =
            pptDecodeMagnetsTimersStatus (List.replicate 86 (5 : ℕ)) sevenVals)) :=
  c7_deterministic (List.replicate 86 (5 : ℕ)) zeroVals sevenVals

/-- An 86-byte buffer that is zero except for byte 64 = 20, so the spec
table's KlystronVoltage word at offset 64 is 20 (scaled value 2). -/
def bufByte64 : List ℕ := List.replicate 64 0 ++ [20, 0] ++ List.replicate 20 0

/-- An 86-byte buffer that is zero except byte 64 = 30 and byte 68 = 50, so
the spec table's KlystronVoltage word is 30 (scaled 3) and its
KlystronCurrent word is 50 (scaled 1/2). -/
def bufByte6468 : List ℕ :=
  List.replicate 64 0 ++ [30, 0, 0, 0, 50, 0] ++ List.replicate 16 0

section Helpers

/-- For a sufficiently long buffer whose bytes 0..59 are all zero, every one
of the 30 decoded output values is zero (all words read by the code lie in
bytes 0..59). -/
theorem outputsAll_eq_zero (buf : List ℕ) (hlen : 86 ≤ buf.length)
    (hb : ∀ i : ℕ, i ≤ 59 → buf.getD i 0 = 0) :
    outputsAll buf = List.replicate 30 0 := by
  have hw : ∀ o : ℕ, o ≤ 58 → getWord buf o = 0 := by
    intro o ho
    unfold getWord
    rw [hb o (by omega), hb (o + 1) (by omega)]
    decide
  unfold outputsAll
  rw [tk_success buf zeroVals hlen, mts_success buf zeroVals hlen]
  simp only [valsList]
  rw [hw 0 (by norm_num), hw 2 (by norm_num), hw 4 (by norm_num),
    hw 14 (by norm_num), hw 16 (by norm_num), hw 18 (by norm_num),
    hw 20 (by norm_num), hw 22 (by norm_num), hw 24 (by norm_num),
    hw 26 (by norm_num), hw 10 (by norm_num), hw 12 (by norm_num),
    hw 32 (by norm_num), hw 34 (by norm_num), hw 36 (by norm_num),
    hw 38 (by norm_num), hw 40 (by norm_num), hw 42 (by norm_num),
    hw 44 (by norm_num), hw 46 (by norm_num), hw 52 (by norm_num),
    hw 54 (by norm_num), hw 6 (by norm_num), hw 8 (by norm_num),
    hw 28 (by norm_num), hw 48 (by norm_num), hw 50 (by norm_num),
    hw 56 (by norm_num), hw 58 (by norm_num)]
  norm_num [div10, div100, rawScale]
  rfl

end Helpers

/-- Counterexample to claim C2 as stated: on a valid 86-byte buffer both
decode functions succeed, yet the section-6 table's KlystronVoltage field
(word at offset 64, scaled by 1/10, here equal to 2) appears nowhere among
the 30 produced output values — the table row is omitted by the code. -/
theorem c2_counterexample :
    (pptDecodeThyratronKlystron bufByte64 zeroVals).ret = 0 ∧
      (pptDecodeMagnetsTimersStatus bufByte64 zeroVals).ret = 0 ∧
      specKlystronVoltage bufByte64 = 2 ∧
      specKlystronVoltage bufByte64 ∉ outputsAll bufByte64 := by
  have hz : outputsAll bufByte64 = List.replicate 30 0 :=
    outputsAll_eq_zero bufByte64 (by decide) (by decide)
  have hv : specKlystronVoltage bufByte64 = 2 := by
    unfold specKlystronVoltage
    rw [show getWord bufByte64 64 = 20 from by decide]
    norm_num [div10]
  refine ⟨by decide, by decide, hv, ?_⟩
  rw [hv, hz]
  simp [List.mem_replicate]

/-- Claim C2 (amended): for every buffer of length at least 86 both decode
functions succeed (status 0, no error report) and populate all 15 of their
output slots — 30 values in total, one per field of the code's table —
independently of the slots' prior contents. -/
theorem c2_success_all_slots (buf : List ℕ) (v w : Vals) (h : 86 ≤ buf.length) :
    (pptDecodeThyratronKlystron buf v).ret = 0 ∧
      (pptDecodeThyratronKlystron buf v).err = none ∧
      (pptDecodeMagnetsTimersStatus buf v).ret = 0 ∧
      (pptDecodeMagnetsTimersStatus buf v).err = none ∧
      (valsList (pptDecodeThyratronKlystron buf v).vals).length = 15 ∧
      (valsList (pptDecodeMagnetsTimersStatus buf v).vals).length = 15 ∧
      (pptDecodeThyratronKlystron buf v).vals = (pptDecodeThyratronKlystron buf w).vals ∧
      (pptDecodeMagnetsTimersStatus buf v).vals = (pptDecodeMagnetsTimersStatus buf w).vals := by
  rw [tk_success buf v h, tk_success buf w h, mts_success buf v h, mts_success buf w h]
  exact ⟨rfl, rfl, rfl, rfl, rfl, rfl, rfl, rfl⟩

/-- Witness for the amended C2 at a concrete 86-byte buffer and two prior
slot states. -/
theorem c2_success_all_slots_witness :
    86 ≤ bufByte64.length ∧
      ((pptDecodeThyratronKlystron bufByte64 zeroVals).ret = 0 ∧
        (pptDecodeThyratronKlystron bufByte64 zeroVals).err = none ∧
        (pptDecodeMagnetsTimersStatus bufByte64 zeroVals).ret = 0 ∧
        (pptDecodeMagnetsTimersStatus bufByte64 zeroVals).err = none ∧
        (valsList (pptDecodeThyratronKlystron bufByte64 zeroVals).vals).length = 15 ∧
        (valsList (pptDecodeMagnetsTimersStatus bufByte64 zeroVals).vals).length = 15 ∧
        (pptDecodeThyratronKlystron bufByte64 zeroVals).vals =
          (pptDecodeThyratronKlystron bufByte64 sevenVals).vals ∧
        (pptDecodeMagnetsTimersStatus bufByte64 zeroVals).vals =
          (pptDecodeMagnetsTimersStatus bufByte64 sevenVals).vals) :=
  ⟨by decide, c2_success_all_slots bufByte64 zeroVals sevenVals (by decide)⟩

/-- Counterexample to claim C4 as stated: on a valid 86-byte buffer whose
word at offset 64 is 30 and whose word at offset 68 is 50, both decode
functions succeed, yet neither the value 3 (= word at 64 divided by 10) nor
the value 1/2 (= word at 68 divided by 100) occurs among the 30 outputs: no
KlystronVoltage or KlystronCurrent field of the spec table is produced. -/
theorem c4_counterexample :
    (pptDecodeThyratronKlystron bufByte6468 zeroVals).ret = 0 ∧
      (pptDecodeMagnetsTimersStatus bufByte6468 zeroVals).ret = 0 ∧
      specKlystronVoltage bufByte6468 = 3 ∧
      specKlystronCurrent bufByte6468 = 1 / 2 ∧
      specKlystronVoltage bufByte6468 ∉ outputsAll bufByte6468 ∧
      specKlystronCurrent bufByte6468 ∉ outputsAll bufByte6468 := by
  have hz : outputsAll bufByte6468 = List.replicate 30 0 :=
    outputsAll_eq_zero bufByte6468 (by decide) (by decide)
  have hv : specKlystronVoltage bufByte6468 = 3 := by
    unfold specKlystronVoltage
    rw [show getWord bufByte6468 64 = 30 from by decide]
    norm_num [div10]
  have hc : specKlystronCurrent bufByte6468 = 1 / 2 := by
    unfold specKlystronCurrent
    rw [show getWord bufByte6468 68 = 50 from by decide]
    norm_num [div100]
  refine ⟨by decide, by decide, hv, hc, ?_, ?_⟩
  · rw [hv, hz]
    simp [List.mem_replicate]
  · rw [hc, hz]
    simp [List.mem_replicate]

/-- Claim C4 (amended): on every successful decode the output contains the
Klystron Heater Voltage (slot D of the Thyratron/Klystron record), equal to
the little-endian word at byte offset 14 divided by 10, and the Klystron
Heater Current (slot E), equal to the word at byte offset 16 divided by
100; no output is derived from offsets 64 or 68. -/
theorem c4_klystron_heater_fields (buf : List ℕ) (v : Vals) (h : 86 ≤ buf.length) :
    (pptDecodeThyratronKlystron buf v).vals.vald = div10 (getWord buf 14) ∧
      (pptDecodeThyratronKlystron buf v).vals.vale = div100 (getWord buf 16) := by
  rw [tk_success buf v h]
  exact ⟨rfl, rfl⟩

/-- Witness for the amended C4 at a concrete buffer with word 123 at offset
14 and word 456 at offset 16. -/
theorem c4_klystron_heater_fields_witness :
    86 ≤ (List.replicate 14 (0 : ℕ) ++ [123, 0, 200, 1] ++ List.replicate 68 0).length ∧
      ((pptDecodeThyratronKlystron
            (List.replicate 14 (0 : ℕ) ++ [123, 0, 200, 1] ++ List.replicate 68 0)
            zeroVals).vals.vald =
          div10 (getWord (List.replicate 14 (0 : ℕ) ++ [123, 0, 200, 1] ++ List.replicate 68 0) 14) ∧
        (pptDecodeThyratronKlystron
            (List.replicate 14 (0 : ℕ) ++ [123, 0, 200, 1] ++ List.replicate 68 0)
            zeroVals).vals.vale =
          div100 (getWord (List.replicate 14 (0 : ℕ) ++ [123, 0, 200, 1] ++ List.replicate 68 0) 16)) :=
  ⟨by decide, c4_klystron_heater_fields _ zeroVals (by decide)⟩

/-- Claim C8: on every buffer of length at least 86 holding bytes 0xFF 0xFF
at offset 4 (the Div100-scaled Thyratron Total Current), the decoded slot C
equals 655.35, the exact value of 65535 / 100. -/
theorem c8_div100_ffff (buf : List ℕ) (v : Vals) (h : 86 ≤ buf.length)
    (h4 : buf.getD 4 0 = 255) (h5 : buf.getD 5 0 = 255) :
    (pptDecodeThyratronKlystron buf v).vals.valc = 655.35 := by
  rw [tk_success buf v h]
  show div100 (getWord buf 4) = 655.35
  have hw : getWord buf 4 = 65535 := by
    unfold getWord
    rw [h4, h5, lor_low_high 255 255 (by norm_num)]
  rw [hw]
  norm_num [div100]

/-- Witness for C8 at a concrete 86-byte buffer with 0xFF 0xFF at offset 4. -/
theorem c8_div100_ffff_witness :
    86 ≤ (List.replicate 4 (0 : ℕ) ++ [255, 255] ++ List.replicate 80 0).length ∧
      (List.replicate 4 (0 : ℕ) ++ [255, 255] ++ List.replicate 80 0).getD 4 0 = 255 ∧
      (List.replicate 4 (0 : ℕ) ++ [255, 255] ++ List.replicate 80 0).getD 5 0 = 255 ∧
      (pptDecodeThyratronKlystron
          (List.replicate 4 (0 : ℕ) ++ [255, 255] ++ List.replicate 80 0)
          sevenVals).vals.valc = 655.35 :=
  ⟨by decide, by decide, by decide,
    c8_div100_ffff _ sevenVals (by decide) (by decide) (by decide)⟩

section Helpers

/-- Any 16-bit word scaled by 1/10 lies in [0, 6553.5]. -/
theorem div10_bounds (w : ℕ) (h : w < 65536) : 0 ≤ div10 w ∧ div10 w ≤ 6553.5 := by
  unfold div10
  constructor
  · positivity
  · have hw : (w : ℚ) ≤ 65535 := by exact_mod_cast (by omega : w ≤ 65535)
    linarith

/-- Any 16-bit word scaled by 1/100 lies in [0, 655.35]. -/
theorem div100_bounds (w : ℕ) (h : w < 65536) : 0 ≤ div100 w ∧ div100 w ≤ 655.35 := by
  unfold div100
  constructor
  · positivity
  · have hw : (w : ℚ) ≤ 65535 := by exact_mod_cast (by omega : w ≤ 65535)
    linarith

/-- Any unscaled 16-bit word lies in [0, 65535]. -/
theorem rawScale_bounds (w : ℕ) (h : w < 65536) : 0 ≤ rawScale w ∧ rawScale w ≤ 65535 := by
  unfold rawScale
  constructor
  · positivity
  · exact_mod_cast (by omega : w ≤ 65535)

/-- The constant reserved slot satisfies the global output range. -/
theorem zero_slot_bounds : 0 ≤ (0 : ℚ) ∧ (0 : ℚ) ≤ 65535 := by norm_num

end Helpers

/-- Claim C10: on every successful decode each produced value is nonnegative
and at most 65535: slot by slot, Div10-scaled fields lie in [0, 6553.5],
Div100-scaled fields in [0, 655.35] and Raw fields in [0, 65535] (listed as
per-slot upper bounds in VALA..VALO order), and every one of the 30 outputs
lies in [0, 65535]. -/
theorem c10_output_ranges (buf : List ℕ) (v : Vals) (h : 86 ≤ buf.length) :
    List.Forall₂ (fun q b => 0 ≤ q ∧ q ≤ b)
        (valsList (pptDecodeThyratronKlystron buf v).vals)
        [6553.5, 6553.5, 655.35, 6553.5, 655.35, 6553.5, 6553.5, 655.35,
          6553.5, 6553.5, 65535, 65535, 65535, 65535, 65535] ∧
      List.Forall₂ (fun q b => 0 ≤ q ∧ q ≤ b)
        (valsList (pptDecodeMagnetsTimersStatus buf v).vals)
        [6553.5, 655.35, 6553.5, 655.35, 6553.5, 655.35, 6553.5, 655.35,
          65535, 65535, 65535, 65535, 65535, 65535, 65535] ∧
      ∀ q ∈ valsList (pptDecodeThyratronKlystron buf v).vals ++
          valsList (pptDecodeMagnetsTimersStatus buf v).vals,
        0 ≤ q ∧ q ≤ 65535 := by
  rw [tk_success buf v h, mts_success buf v h]
  refine ⟨?_, ?_, ?_⟩
  · simp only [valsList, List.forall₂_cons]
    exact ⟨div10_bounds _ (getWord_lt _ _), div10_bounds _ (getWord_lt _ _),
      div100_bounds _ (getWord_lt _ _), div10_bounds _ (getWord_lt _ _),
      div100_bounds _ (getWord_lt _ _), div10_bounds _ (getWord_lt _ _),
      div10_bounds _ (getWord_lt _ _), div100_bounds _ (getWord_lt _ _),
      div10_bounds _ (getWord_lt _ _), div10_bounds _ (getWord_lt _ _),
      rawScale_bounds _ (getWord_lt _ _), rawScale_bounds _ (getWord_lt _ _),
      rawScale_bounds _ (getWord_lt _ _), rawScale_bounds _ (getWord_lt _ _),
      zero_slot_bounds, List.Forall₂.nil⟩
  · simp only [valsList, List.forall₂_cons]
    exact ⟨div10_bounds _ (getWord_lt _ _), div100_bounds _ (getWord_lt _ _),
      div10_bounds _ (getWord_lt _ _), div100_bounds _ (getWord_lt _ _),
      div10_bounds _ (getWord_lt _ _), div100_bounds _ (getWord_lt _ _),
      div10_bounds _ (getWord_lt _ _), div100_bounds _ (getWord_lt _ _),
      rawScale_bounds _ (getWord_lt _ _), rawScale_bounds _ (getWord_lt _ _),
      rawScale_bounds _ (getWord_lt _ _), rawScale_bounds _ (getWord_lt _ _),
      rawScale_bounds _ (getWord_lt _ _), rawScale_bounds _ (getWord_lt _ _),
      rawScale_bounds _ (getWord_lt _ _), List.Forall₂.nil⟩
  · intro q hq
    simp only [valsList, List.mem_append, List.mem_cons, List.mem_nil_iff,
      or_false] at hq
    have H10 : ∀ o : ℕ, 0 ≤ div10 (getWord buf o) ∧ div10 (getWord buf o) ≤ 65535 :=
      fun o => ⟨(div10_bounds _ (getWord_lt buf o)).1,
        le_trans (div10_bounds _ (getWord_lt buf o)).2 (by norm_num)⟩
    have H100 : ∀ o : ℕ, 0 ≤ div100 (getWord buf o) ∧ div100 (getWord buf o) ≤ 65535 :=
      fun o => ⟨(div100_bounds _ (getWord_lt buf o)).1,
        le_trans (div100_bounds _ (getWord_lt buf o)).2 (by norm_num)⟩
    have Hraw : ∀ o : ℕ, 0 ≤ rawScale (getWord buf o) ∧ rawScale (getWord buf o) ≤ 65535 :=
      fun o => rawScale_bounds _ (getWord_lt buf o)
    rcases hq with
      (rfl|rfl|rfl|rfl|rfl|rfl|rfl|rfl|rfl|rfl|rfl|rfl|rfl|rfl|rfl) |
      (rfl|rfl|rfl|rfl|rfl|rfl|rfl|rfl|rfl|rfl|rfl|rfl|rfl|rfl|rfl)
    · exact H10 0
    · exact H10 2
    · exact H100 4
    · exact H10 14
    · exact H100 16
    · exact H10 18
    · exact H10 20
    · exact H100 22
    · exact H10 24
    · exact H10 26
    · exact Hraw 10
    · exact Hraw 12
    · exact Hraw 32
    · exact Hraw 34
    · exact zero_slot_bounds
    · exact H10 36
    · exact H100 38
    · exact H10 40
    · exact H100 42
    · exact H10 44
    · exact H100 46
    · exact H10 52
    · exact H100 54
    · exact Hraw 6
    · exact Hraw 8
    · exact Hraw 28
    · exact Hraw 48
    · exact Hraw 50
    · exact Hraw 56
    · exact Hraw 58

/-- Witness for C10 at the concrete all-0xFF 86-byte buffer. -/
theorem c10_output_ranges_witness :
    86 ≤ (List.replicate 86 (255 : ℕ)).length ∧
      (List.Forall₂ (fun q b => 0 ≤ q ∧ q ≤ b)
          (valsList (pptDecodeThyratronKlystron (List.replicate 86 (255 : ℕ)) sevenVals).vals)
          [6553.5, 6553.5, 655.35, 6553.5, 655.35, 6553.5, 6553.5, 655.35,
            6553.5, 6553.5, 65535, 65535, 65535, 65535, 65535] ∧
        List.Forall₂ (fun q b => 0 ≤ q ∧ q ≤ b)
          (valsList (pptDecodeMagnetsTimersStatus (List.replicate 86 (255 : ℕ)) sevenVals).vals)
          [6553.5, 655.35, 6553.5, 655.35, 6553.5, 655.35, 6553.5, 655.35,
            65535, 65535, 65535, 65535, 65535, 65535, 65535] ∧
        ∀ q ∈ valsList (pptDecodeThyratronKlystron (List.replicate 86 (255 : ℕ)) sevenVals).vals ++
            valsList (pptDecodeMagnetsTimersStatus (List.replicate 86 (255 : ℕ)) sevenVals).vals,
          0 ≤ q ∧ q ≤ 65535) :=
  ⟨by decide, c10_output_ranges (List.replicate 86 (255 : ℕ)) sevenVals (by decide)⟩

/-- Counterexample to claim C5 as stated: the scaled value Div10(1) is the
rational 1/10, and no IEEE-754 binary64 value equals 1/10 exactly (its
reduced denominator is not a power of two), so `rawVal / 10.0` cannot yield
the exact rational `word / 10` for every word — precision is lost at
word = 1. -/
theorem c5_counterexample : div10 1 = 1 / 10 ∧ ¬ reprBinary64 (div10 1) := by
  constructor
  · norm_num [div10]
  · rintro ⟨m, e, _habs, _hlo, _hhi, heq⟩
    have h2 : (10 : ℚ) * ((m : ℚ) * (2 : ℚ) ^ e) = 1 := by
      rw [← heq]
      norm_num [div10]
    rcases le_or_lt 0 e with he | he
    · obtain ⟨n, rfl⟩ : ∃ n : ℕ, e = (n : ℤ) := ⟨e.toNat, (Int.toNat_of_nonneg he).symm⟩
      rw [zpow_natCast] at h2
      have hint : (10 : ℤ) * (m * 2 ^ n) = 1 := by exact_mod_cast h2
      have hdvd : (10 : ℤ) ∣ 1 := ⟨m * 2 ^ n, hint.symm⟩
      norm_num at hdvd
    · obtain ⟨n, rfl⟩ : ∃ n : ℕ, e = -(n : ℤ) := by
        refine ⟨(-e).toNat, ?_⟩
        omega
      have h2n : (10 : ℚ) * (m : ℚ) = (2 : ℚ) ^ n := by
        rw [zpow_neg, zpow_natCast] at h2
        have hpow : (0 : ℚ) < 2 ^ n := by positivity
        field_simp at h2
        linarith
      have hint : (10 : ℤ) * m = 2 ^ n := by exact_mod_cast h2n
      have h5 : (5 : ℤ) ∣ 2 ^ n := ⟨2 * m, by linarith⟩
      have h5n : (5 : ℕ) ∣ 2 ^ n := by exact_mod_cast h5
      have hp := Nat.Prime.dvd_of_dvd_pow (by norm_num : Nat.Prime 5) h5n
      norm_num at hp

/-- Claim C5 (amended): for every 16-bit word the scalings are exact as
rationals — Div10(word) = word/10, Div100(word) = word/100, Raw(word) =
word — and as binary64 values Raw(word) is always exactly representable
(word < 2^53), while Div10(word) is exactly representable whenever word is
a multiple of 5 and Div100(word) whenever word is a multiple of 25; for
other words the quotient is not a dyadic rational and the double division
rounds (see the counterexample at word = 1). -/
theorem c5_scaling_exactness (w : ℕ) (h : w ≤ 65535) :
    rawScale w = (w : ℚ) ∧ reprBinary64 (rawScale w) ∧
      div10 w = (w : ℚ) / 10 ∧ (5 ∣ w → reprBinary64 (div10 w)) ∧
      div100 w = (w : ℚ) / 100 ∧ (25 ∣ w → reprBinary64 (div100 w)) := by
  refine ⟨rfl, ?_, rfl, ?_, rfl, ?_⟩
  · refine ⟨(w : ℤ), 0, ?_, by norm_num, by norm_num, ?_⟩
    · rw [Int.abs_natCast]
      exact_mod_cast lt_of_le_of_lt h (by norm_num : (65535 : ℕ) < 2 ^ 53)
    · simp [rawScale]
  · rintro ⟨t, rfl⟩
    refine ⟨(t : ℤ), -1, ?_, by norm_num, by norm_num, ?_⟩
    · rw [Int.abs_natCast]
      have ht : t ≤ 13107 := by omega
      exact_mod_cast lt_of_le_of_lt ht (by norm_num : (13107 : ℕ) < 2 ^ 53)
    · rw [zpow_neg, zpow_one]
      unfold div10
      push_cast
      field_simp
      ring
  · rintro ⟨t, rfl⟩
    refine ⟨(t : ℤ), -2, ?_, by norm_num, by norm_num, ?_⟩
    · rw [Int.abs_natCast]
      have ht : t ≤ 2622 := by omega
      exact_mod_cast lt_of_le_of_lt ht (by norm_num : (2622 : ℕ) < 2 ^ 53)
    · rw [show ((2 : ℚ) ^ (-2 : ℤ)) = 1 / 4 by norm_num]
      unfold div100
      push_cast
      field_simp
      ring

/-- Witness for the amended C5 at word 100 (a multiple of both 5 and 25). -/
theorem c5_scaling_exactness_witness :
    (100 : ℕ) ≤ 65535 ∧
      (rawScale 100 = ((100 : ℕ) : ℚ) ∧ reprBinary64 (rawScale 100) ∧
        div10 100 = ((100 : ℕ) : ℚ) / 10 ∧ (5 ∣ (100 : ℕ) → reprBinary64 (div10 100)) ∧
        div100 100 = ((100 : ℕ) : ℚ) / 100 ∧ (25 ∣ (100 : ℕ) → reprBinary64 (div100 100))) :=
  ⟨by norm_num, c5_scaling_exactness 100 (by norm_num)⟩
